/-
Verification of the core invariants of the ADB projects scraper
(checkpoint manager, listing and detail page extraction, JSON output
merging).  Each Python routine of the repository is shallowly embedded
as an executable Lean definition; the theorems below settle the
specified properties against those definitions.

Modelling conventions:
  * Python strings are Lean `String`; `str.strip()` is `pyStrip`,
    `str.split(sep)` is `pySplit`, `sub in s` is `pyIn` — all written
    over character lists so that they reduce by computation.
  * Python truthiness of an optional string (`x or y`) is `pyOrO` /
    `pyOrD`: `None` and the empty string are falsy.
  * Wall-clock data (`scraped_at`, `last_updated`, failure timestamps)
    is omitted: it is never read by any of the verified routines.
  * HTML documents are modelled by structures whose fields are the
    element texts the parsers actually consult (BeautifulSoup `find` /
    `find_all` results), in document order.
-/
import Mathlib

namespace AdbScraper

/-- Python truthiness test for an optional string: `None` and `""` are falsy. -/
def pyTruthy : Option String → Bool
  | some s => s ≠ ""
  | none => false

/-- Python `a or b` on optional strings: `b` when `a` is `None` or empty. -/
def pyOrO (a b : Option String) : Option String :=
  match a with
  | some s => if s = "" then b else some s
  | none => b

/-- Python `a or d` where the fallback `d` is a plain string. -/
def pyOrD (a : Option String) (d : String) : String :=
  match a with
  | some s => if s = "" then d else s
  | none => d

/-- Python `str.strip()`: drop whitespace from both ends.  (Character
lists are used throughout instead of the built-in `String` routines so
that every operation reduces by computation.) -/
def pyStrip (s : String) : String :=
  ⟨((s.data.dropWhile Char.isWhitespace).reverse.dropWhile Char.isWhitespace).reverse⟩

/-- Drop a leading occurrence of `pat`; `none` when `l` does not start
with `pat`. -/
def dropLeading : List Char → List Char → Option (List Char)
  | [], l => some l
  | _, [] => none
  | c :: cs, x :: xs => if c = x then dropLeading cs xs else none

/-- Whether `l` starts with `pat`. -/
def startsWithChars (pat l : List Char) : Bool :=
  (dropLeading pat l).isSome

/-- Whether `pat` occurs anywhere inside `l`. -/
def containsSub (pat : List Char) : List Char → Bool
  | [] => (dropLeading pat []).isSome
  | x :: xs => (dropLeading pat (x :: xs)).isSome || containsSub pat xs

/-- Python `needle in hay`. -/
def pyIn (needle hay : String) : Bool :=
  containsSub needle.data hay.data

/-- Split a character list on a separator character; always produces at
least one piece, like Python `str.split(c)`. -/
def splitChar (c : Char) : List Char → List (List Char)
  | [] => [[]]
  | x :: xs =>
    let r := splitChar c xs
    if x = c then [] :: r
    else
      match r with
      | h :: t => (x :: h) :: t
      | [] => [[x]]

/-- Python `s.split(c)` for a one-character separator (the only kind the
scraper uses). -/
def pySplit (s : String) (c : Char) : List String :=
  (splitChar c s.data).map String.mk

/-- Everything after the first occurrence of the character `c`. -/
def afterFirstChars (c : Char) : List Char → List Char
  | [] => []
  | x :: xs => if x = c then xs else afterFirstChars c xs

/-- Everything after the first occurrence of `c`, as in Python
`s.split(c, 1)[1]` (only used under an occurrence guard). -/
def afterFirst (s : String) (c : Char) : String :=
  ⟨afterFirstChars c s.data⟩

/-- Remove every occurrence of a non-empty pattern, as in Python
`s.replace(pat, "")`; the fuel argument (the input length) only makes the
recursion structural. -/
def removeAllFuel (pat : List Char) : Nat → List Char → List Char
  | 0, _ => []
  | _ + 1, [] => []
  | fuel + 1, x :: xs =>
    match dropLeading pat (x :: xs) with
    | some rest => removeAllFuel pat fuel rest
    | none => x :: removeAllFuel pat fuel xs

/-- Python `s.replace(pat, "")` for a non-empty `pat`. -/
def pyRemove (pat s : String) : String :=
  ⟨removeAllFuel pat.data s.data.length s.data⟩

/-- Model of `urllib.parse.urljoin` for the reference shapes the scraper
feeds it: an empty relative part returns the base, an absolute URL wins,
and a path is appended to the site base. -/
def urljoin (base rel : String) : String :=
  if rel = "" then base
  else if startsWithChars "http".data rel.data then rel
  else base ++ rel

/-! ## checkpoint_manager.py -/

/-- The nested `statistics` dictionary of the checkpoint data. -/
structure Statistics where
  listing_pages_scraped : Int
  detail_pages_scraped : Nat
  errors_encountered : Nat
  deriving Repr, DecidableEq

/-- One entry of `failed_urls` (`add_failed_url`); the wall-clock
timestamp stored alongside is omitted. -/
structure FailedUrl where
  url : String
  error : String
  deriving Repr, DecidableEq

/-- In-memory checkpoint data (`CheckpointManager.data`); `last_updated`
is omitted (wall clock, never read back). -/
structure Checkpoint where
  last_page_scraped : Int
  total_projects_scraped : Nat
  scraped_project_ids : List String
  failed_urls : List FailedUrl
  statistics : Statistics
  deriving Repr, DecidableEq

/-- The default structure built by `_load_checkpoint` when no checkpoint
file exists. -/
def defaultCheckpointData : Checkpoint :=
  { last_page_scraped := -1
    total_projects_scraped := 0
    scraped_project_ids := []
    failed_urls := []
    statistics := { listing_pages_scraped := 0, detail_pages_scraped := 0, errors_encountered := 0 } }

/-- `CheckpointManager.update_page_progress`. -/
def update_page_progress (cp : Checkpoint) (page_number : Int) : Checkpoint :=
  { cp with
    last_page_scraped := page_number
    statistics := { cp.statistics with listing_pages_scraped := page_number + 1 } }

/-- `CheckpointManager.add_scraped_project`. -/
def add_scraped_project (cp : Checkpoint) (project_id : String) : Checkpoint :=
  if project_id ∈ cp.scraped_project_ids then cp
  else
    let ids := cp.scraped_project_ids ++ [project_id]
    { cp with scraped_project_ids := ids, total_projects_scraped := ids.length }

/-- `CheckpointManager.is_project_scraped`. -/
def is_project_scraped (cp : Checkpoint) (project_id : String) : Bool :=
  cp.scraped_project_ids.contains project_id

/-- `CheckpointManager.add_failed_url` (timestamp omitted). -/
def add_failed_url (cp : Checkpoint) (url error : String) : Checkpoint :=
  { cp with failed_urls := cp.failed_urls ++ [{ url := url, error := error }] }

/-- `CheckpointManager.increment_detail_pages`. -/
def increment_detail_pages (cp : Checkpoint) : Checkpoint :=
  { cp with
    statistics := { cp.statistics with
      detail_pages_scraped := cp.statistics.detail_pages_scraped + 1 } }

/-- `CheckpointManager.increment_errors`. -/
def increment_errors (cp : Checkpoint) : Checkpoint :=
  { cp with
    statistics := { cp.statistics with
      errors_encountered := cp.statistics.errors_encountered + 1 } }

/-- `CheckpointManager.get_resume_page`. -/
def get_resume_page (cp : Checkpoint) : Int :=
  cp.last_page_scraped + 1

/-! ## models.py -/

/-- `ProjectListing` dataclass (`scraped_at` omitted, see header). -/
structure ProjectListing where
  project_id : String
  title : String
  url : String
  country : Option String := none
  sector : Option String := none
  status : Option String := none
  approval_year : Option String := none
  deriving Repr, DecidableEq

/-- `ProjectDetail` dataclass (`scraped_at` omitted, see header). -/
structure ProjectDetail where
  project_id : String
  title : String
  url : String
  country : Option String := none
  sector : Option String := none
  status : Option String := none
  approval_year : Option String := none
  project_type : Option String := none
  modality : Option String := none
  financing_source : Option String := none
  financing_amount : Option String := none
  subsector : Option String := none
  description : Option String := none
  rationale : Option String := none
  impact : Option String := none
  outcome : Option String := none
  outputs : Option String := none
  geographical_location : Option String := none
  gender_tag : Option String := none
  safeguard_environment : Option String := none
  safeguard_involuntary_resettlement : Option String := none
  safeguard_indigenous_peoples : Option String := none
  responsible_adb_officer : Option String := none
  responsible_adb_department : Option String := none
  responsible_adb_division : Option String := none
  executing_agencies : Option String := none
  concept_clearance : Option String := none
  fact_finding : Option String := none
  approval_date : Option String := none
  last_pds_update : Option String := none
  deriving Repr, DecidableEq

/-- `validate_project_listing`: the loop over
`required_fields = [project_id, title, url]` unrolled; a field fails the
`not data.get(field_name)` test exactly when it is the empty string. -/
def validate_project_listing (data : ProjectListing) : Bool × List String :=
  let errors :=
    (if data.project_id = "" then ["Missing required field: project_id"] else []) ++
    (if data.title = "" then ["Missing required field: title"] else []) ++
    (if data.url = "" then ["Missing required field: url"] else [])
  (errors.isEmpty, errors)

/-- `validate_project_detail`: required fields produce errors, recommended
fields produce warnings; validity depends on the errors alone. -/
def validate_project_detail (data : ProjectDetail) : Bool × List String :=
  let errors :=
    (if data.project_id = "" then ["Missing required field: project_id"] else []) ++
    (if data.title = "" then ["Missing required field: title"] else []) ++
    (if data.url = "" then ["Missing required field: url"] else [])
  let warnings :=
    (if pyTruthy data.country then [] else ["Missing recommended field: country"]) ++
    (if pyTruthy data.sector then [] else ["Missing recommended field: sector"]) ++
    (if pyTruthy data.status then [] else ["Missing recommended field: status"]) ++
    (if pyTruthy data.financing_amount then [] else ["Missing recommended field: financing_amount"])
  (errors.isEmpty, errors ++ warnings)

/-! ## scraper.py — listing extraction

A listing document is the list of `div.item.linked` blocks found by
`parse_listing_page`; each block is described by the element texts the
parser consults.  Element texts are stored raw; the parser applies
`String.trim` wherever the source calls `get_text(strip=True)`. -/

/-- The `a` element inside `div.item-title`; `href` is `none` when the
attribute is absent (the source defaults it to `""` via `get`). -/
structure LinkElem where
  text : String
  href : Option String
  deriving Repr, DecidableEq

/-- The `div.item-title` element of an item block. -/
structure TitleElem where
  link : Option LinkElem
  deriving Repr, DecidableEq

/-- One `div.item.linked` block on a listing page. -/
structure ListingItem where
  titleElem : Option TitleElem
  summaryText : Option String
  statusText : Option String
  timeText : Option String
  deriving Repr, DecidableEq

/-- A listing page: its item blocks in document order. -/
structure ListingDoc where
  items : List ListingItem
  deriving Repr, DecidableEq

/-- `ADBProjectsScraper.BASE_URL`. -/
def BASE_URL : String := "https://www.adb.org"

/-- The summary text of an item: stripped text of `div.item-summary`,
or `""` when the element is absent. -/
def summaryTextOf (item : ListingItem) : String :=
  match item.summaryText with
  | some s => pyStrip s
  | none => ""

/-- The summary-splitting block of `parse_listing_page`
(src/scraper.py lines 166-177): positional split of the stripped summary
on semicolons into candidate id, country and sector. -/
def parseSummary (summary_text : String) : Option String × Option String × Option String :=
  if summary_text ≠ "" then
    let parts := (pySplit summary_text ';').map pyStrip
    (if parts.length ≥ 1 then parts[0]? else none,
     if parts.length ≥ 2 then parts[1]? else none,
     if parts.length ≥ 3 then parts[2]? else none)
  else (none, none, none)

/-- The record-construction part of the `parse_listing_page` loop body:
skip the item when the title element or its link is missing, otherwise
build the `ProjectListing` (with the `"UNKNOWN"` fallback for the id). -/
def buildListingCandidate (item : ListingItem) : Option ProjectListing :=
  match item.titleElem with
  | none => none
  | some te =>
    match te.link with
    | none => none
    | some title_link =>
      let title := pyStrip title_link.text
      let url := urljoin BASE_URL (title_link.href.getD "")
      let summary := parseSummary (summaryTextOf item)
      let status := item.statusText.map pyStrip
      let approval_year := item.timeText.map pyStrip
      some
        { project_id := pyOrD summary.1 "UNKNOWN"
          title := title
          url := url
          country := summary.2.1
          sector := summary.2.2
          status := status
          approval_year := approval_year }

/-- One full iteration of the `parse_listing_page` loop: construct the
candidate and keep it only when `validate_project_listing` accepts it;
every skip path (missing element, validation failure, per-item
exception) yields `none`. -/
def parseListingItem (item : ListingItem) : Option ProjectListing :=
  match buildListingCandidate item with
  | none => none
  | some project =>
    if (validate_project_listing project).1 then some project else none

/-- `ADBProjectsScraper.parse_listing_page`: the loop appends each
successfully parsed, valid item and skips the rest. -/
def parse_listing_page (doc : ListingDoc) : List ProjectListing :=
  doc.items.filterMap parseListingItem

/-! ## scraper.py — detail extraction

A detail document is described by the element texts
`parse_detail_page` consults.  `dd` elements carry, besides their full
text, the texts of the two distinguished sub-elements the parser looks
for (`strong.sector`, `span.address-company`).  Sibling structure is
modelled positionally: the i-th `dd` of a `dl` follows the i-th `dt`. -/

/-- A `dd` element of a `dl.pds` block. -/
structure DdElem where
  text : String
  strongSector : Option String
  addressCompany : Option String
  deriving Repr, DecidableEq

/-- One `dl.pds` block: its `dt` texts and `dd` elements in order
(the source zips the two lists). -/
structure DlBlock where
  dts : List String
  dds : List DdElem
  deriving Repr, DecidableEq

/-- The `tbody` of the financing table. -/
structure FundTbody where
  rows : List (List String)
  deriving Repr, DecidableEq

/-- The `table.fund-table` element, whose `tbody` may be missing. -/
structure FundTable where
  tbody : Option FundTbody
  deriving Repr, DecidableEq

/-- A project detail page. -/
structure DetailDoc where
  h4s : List String
  h1Text : Option String
  statusDivText : Option String
  dls : List DlBlock
  fund_table : Option FundTable
  deriving Repr, DecidableEq

/-- Python dict assignment `d[k] = v`: update the value in place when the
key is present, append the binding otherwise. -/
def pyDictInsert : List (String × String) → String → String → List (String × String)
  | [], k, v => [(k, v)]
  | (k0, v0) :: rest, k, v =>
      if k0 = k then (k0, v) :: rest else (k0, v0) :: pyDictInsert rest k v

/-- Python `d.get(k)`: the value at the first (hence unique) binding of
the key. -/
def pyDictGet : List (String × String) → String → Option String
  | [], _ => none
  | (k0, v0) :: rest, k => if k0 = k then some v0 else pyDictGet rest k

/-- The value paired with the last occurrence of a key in a raw pair
list (the specification-side notion of a last-write-wins scan). -/
def lastValue : List (String × String) → String → Option String
  | [], _ => none
  | (k0, v0) :: rest, k =>
    match lastValue rest k with
    | some v => some v
    | none => if k0 = k then some v0 else none

/-- The stripped label/value pairs of one `dl.pds` block: the source zips
`find_all('dt', ...)` with `find_all('dd', ...)` and strips both texts. -/
def dlPairs (dl : DlBlock) : List (String × String) :=
  (dl.dts.zip (dl.dds.map (·.text))).map (fun p => (pyStrip p.1, pyStrip p.2))

/-- All label/value pairs of a document in document order. -/
def pdsAllPairs (doc : DetailDoc) : List (String × String) :=
  ((doc.dls.map dlPairs).flatten)

/-- The `pds_data` dictionary built by the nested loop of
`parse_detail_page` (src/scraper.py lines 255-266): sequential dict
assignments over all pairs in document order. -/
def buildPdsData (dls : List DlBlock) : List (String × String) :=
  (((dls.map dlPairs).flatten)).foldl (fun d kv => pyDictInsert d kv.1 kv.2) []

/-- The parts of the header line `"<type> | <id>"`: stripped split on
`"|"` of the first `h4` whose text contains both `"Project"` and `"|"`;
empty when no such `h4` exists. -/
def headerParts (doc : DetailDoc) : List String :=
  match doc.h4s.find? (fun s => pyIn "Project" s && pyIn "|" s) with
  | some t => (pySplit (pyStrip t) '|').map pyStrip
  | none => []

/-- `project_type` extracted from the header line (set only when the
split has at least two parts). -/
def headerProjectType (doc : DetailDoc) : Option String :=
  if (headerParts doc).length ≥ 2 then (headerParts doc)[0]? else none

/-- `project_id` extracted from the header line (set only when the split
has at least two parts). -/
def headerProjectId (doc : DetailDoc) : Option String :=
  if (headerParts doc).length ≥ 2 then (headerParts doc)[1]? else none

/-- The stripped text of the first `h1`, when present. -/
def detailHeadingTitle (doc : DetailDoc) : Option String :=
  doc.h1Text.map pyStrip

/-- The status parsed from `div.project-status`: text of the form
`"Status: X"` yields `X`, anything else yields nothing. -/
def detailDivStatus (doc : DetailDoc) : Option String :=
  match doc.statusDivText with
  | some t =>
    let status_text := pyStrip t
    if pyIn "Status:" status_text then some (pyStrip (pyRemove "Status:" status_text))
    else none
  | none => none

/-- `dl.find('dt', string=label)` followed by `find_next_sibling('dd')`
over the first `dl` containing the label: the `dd` at the matched `dt`
position (sibling order modelled positionally). -/
def findDtDd (dls : List DlBlock) (label : String) : Option DdElem :=
  match dls.find? (fun dl => dl.dts.contains label) with
  | none => none
  | some dl =>
    match dl.dts.findIdx? (fun t => t == label) with
    | some i => dl.dds[i]?
    | none => none

/-- The sector / subsector pair resolved from the
`"Sector / Subsector"` block (src/scraper.py lines 274-292). -/
def detailSectorSubsector (doc : DetailDoc) : Option String × Option String :=
  match findDtDd doc.dls "Sector / Subsector" with
  | some dd =>
    match dd.strongSector with
    | some se =>
      let full_text := pyStrip dd.text
      (some (pyStrip se),
       if pyIn "/" full_text then some (pyStrip (afterFirst full_text '/')) else none)
    | none => (none, none)
  | none => (none, none)

/-- The financing source / amount pair from the first data row of the
financing table (src/scraper.py lines 297-310). -/
def detailFinancing (doc : DetailDoc) : Option String × Option String :=
  match doc.fund_table with
  | some ft =>
    match ft.tbody with
    | some tb =>
      match tb.rows with
      | row :: _ =>
        if row.length ≥ 2 then ((row[0]?).map pyStrip, (row[1]?).map pyStrip)
        else (none, none)
      | [] => (none, none)
    | none => (none, none)
  | none => (none, none)

/-- The executing-agency text from the `"Executing Agencies"` block
(src/scraper.py lines 331-343). -/
def detailExecutingAgencies (doc : DetailDoc) : Option String :=
  match findDtDd doc.dls "Executing Agencies" with
  | some dd => dd.addressCompany.map pyStrip
  | none => none

/-- The body of `ADBProjectsScraper.parse_detail_page` (everything inside
the `try`): build the `pds_data` dictionary, resolve the simple and
structural fields, and construct the `ProjectDetail`.  Every operation of
the embedding is total, so the body always produces a record. -/
def parse_detail_body (doc : DetailDoc) (project_url : String) : ProjectDetail :=
  let project_id := headerProjectId doc
  let project_type := headerProjectType doc
  let title := detailHeadingTitle doc
  let status := detailDivStatus doc
  let pds_data := buildPdsData doc.dls
  let project_name := pyDictGet pds_data "Project Name"
  let project_number := pyDictGet pds_data "Project Number"
  let country := pyDictGet pds_data "Country / Economy"
  let project_status := pyDictGet pds_data "Project Status"
  let sector_pair := detailSectorSubsector doc
  let modality := pyDictGet pds_data "Project Type / Modality of Assistance"
  let fin_pair := detailFinancing doc
  { project_id := pyOrD (pyOrO project_number project_id) "UNKNOWN"
    title := pyOrD (pyOrO project_name title) "UNKNOWN"
    url := project_url
    country := country
    sector := sector_pair.1
    status := pyOrO project_status status
    approval_year := none
    project_type := project_type
    modality := modality
    financing_source := fin_pair.1
    financing_amount := fin_pair.2
    subsector := sector_pair.2
    description := pyDictGet pds_data "Description"
    rationale := pyDictGet pds_data "Project Rationale and Linkage to Country/Regional Strategy"
    impact := pyDictGet pds_data "Impact"
    outcome := pyDictGet pds_data "Outcome"
    outputs := pyDictGet pds_data "Outputs"
    geographical_location := pyDictGet pds_data "Geographical Location"
    gender_tag := pyDictGet pds_data "Gender"
    safeguard_environment := pyDictGet pds_data "Environment"
    safeguard_involuntary_resettlement := pyDictGet pds_data "Involuntary Resettlement"
    safeguard_indigenous_peoples := pyDictGet pds_data "Indigenous Peoples"
    responsible_adb_officer := pyDictGet pds_data "Responsible ADB Officer"
    responsible_adb_department := pyDictGet pds_data "Responsible ADB Department"
    responsible_adb_division := pyDictGet pds_data "Responsible ADB Division"
    executing_agencies := detailExecutingAgencies doc
    concept_clearance := pyDictGet pds_data "Concept Clearance"
    fact_finding := pyDictGet pds_data "Fact Finding"
    approval_date := pyDictGet pds_data "Approval"
    last_pds_update := pyDictGet pds_data "Last PDS Update" }

/-- `ADBProjectsScraper.parse_detail_page`: the body runs inside a
catch-all `try` whose handler returns `None`; in the embedding the body
is total, so the result is always `some` (the validation call inside the
source only logs and does not affect the result). -/
def parse_detail_page (doc : DetailDoc) (project_url : String) : Option ProjectDetail :=
  some (parse_detail_body doc project_url)

/-! ## main.py -/

/-- The loop of `save_to_json` in append mode: walk the new records,
keeping a seen-id set seeded with the ids already in the file, and append
only records whose id is fresh. -/
def mergeInto (acc : List ProjectDetail) (seen : List String) :
    List ProjectDetail → List ProjectDetail
  | [] => acc
  | proj :: rest =>
    if proj.project_id ∈ seen then mergeInto acc seen rest
    else mergeInto (acc ++ [proj]) (proj.project_id :: seen) rest

/-- The `projects` array written by `save_to_json(..., append=True)` when
the target file already holds `existing`: the dedup-by-id merge of
src/main.py lines 79-87 (metadata header aside). -/
def save_to_json_merge (existing new : List ProjectDetail) : List ProjectDetail :=
  mergeInto existing (existing.map (·.project_id)) new

/-- Number of stored records carrying a given identifier. -/
def countById (l : List ProjectDetail) (i : String) : Nat :=
  (l.map (·.project_id)).count i

/-- `project_id = url.split('/')[-2] if '/' in url else None`
(src/main.py line 239). -/
def projectIdFromUrl (url : String) : Option String :=
  if pyIn "/" url then
    let ps := pySplit url '/'
    ps[ps.length - 2]?
  else none

/-- The result handling of one `scrape_details` iteration
(src/main.py lines 246-270, the incremental-save cadence aside): a
successful parse bumps the detail counter and records the id from the
URL; a `None` result records a failed fetch with reason
`"Parsing failed"`. -/
def scrapeDetailHandle (cp : Checkpoint) (url : String)
    (result : Option ProjectDetail) : Checkpoint :=
  match result with
  | some _ =>
    let cp1 := increment_detail_pages cp
    match projectIdFromUrl url with
    | some pid => if pid = "" then cp1 else add_scraped_project cp1 pid
    | none => cp1
  | none => add_failed_url cp url "Parsing failed"

/-! ## Concrete instances used by the theorems -/

/-- A concrete record used to instantiate the output-merge theorems. -/
def sampleDetail : ProjectDetail :=
  { project_id := "59364-001"
    title := "Some Project"
    url := "https://www.adb.org/projects/59364-001/main" }

/-- A listing item with a well-formed title link and a given summary. -/
def itemWithSummary (s : String) : ListingItem :=
  { titleElem := some { link := some { text := "Some Project", href := some "/projects/59364-001/main" } }
    summaryText := some s
    statusText := none
    timeText := none }

/-- A listing item block with no title element. -/
def badItem : ListingItem :=
  { titleElem := none, summaryText := none, statusText := none, timeText := none }

/-- A listing item with a title link but no summary element. -/
def noSummaryItem : ListingItem :=
  { titleElem := some { link := some { text := "Some Project", href := some "/projects/42-007/main" } }
    summaryText := none
    statusText := none
    timeText := none }

/-- A detail document with no financing table. -/
def noFundDoc : DetailDoc :=
  { h4s := ["Sovereign Project | 59364-001"]
    h1Text := some "Some Project"
    statusDivText := none
    dls := []
    fund_table := none }

/-- A detail document with neither a project-number entry nor a header
line, as fetched for an item whose identifier the listing stage knows. -/
def headerlessDoc : DetailDoc :=
  { h4s := []
    h1Text := some "Some Project Title"
    statusDivText := none
    dls := []
    fund_table := none }

/-- Modelled from the spec: the identifier-resolution chain asserted by
claim C3 — first-non-empty over the dictionary project-number field, then
the identifier parsed from the header line, then the identifier already
known from the listing stage, else the literal sentinel `"UNKNOWN"`.
Stated from the claim's words, for comparison with `parse_detail_page`
(whose source has no access to a listing-stage identifier). -/
def claimIdResolution (project_number header_id listing_id : Option String) : String :=
  pyOrD (pyOrO (pyOrO project_number header_id) listing_id) "UNKNOWN"

/-! ## Helper lemmas -/

/-- Adding an identifier that is already recorded is a no-op. -/
lemma add_scraped_project_mem (cp : Checkpoint) (pid : String)
    (h : pid ∈ cp.scraped_project_ids) : add_scraped_project cp pid = cp := by
  simp [add_scraped_project, h]

/-- Adding a fresh identifier appends it and recomputes the total. -/
lemma add_scraped_project_not_mem (cp : Checkpoint) (pid : String)
    (h : pid ∉ cp.scraped_project_ids) :
    add_scraped_project cp pid =
      { cp with scraped_project_ids := cp.scraped_project_ids ++ [pid],
                total_projects_scraped := cp.scraped_project_ids.length + 1 } := by
  simp [add_scraped_project, h]

/-- `add_scraped_project` never touches the failure log. -/
lemma add_scraped_project_failed_urls (cp : Checkpoint) (pid : String) :
    (add_scraped_project cp pid).failed_urls = cp.failed_urls := by
  unfold add_scraped_project
  split <;> rfl

/-- The Python `or` fallback to a non-empty default is never empty. -/
lemma pyOrD_ne_empty (a : Option String) (d : String) (hd : d ≠ "") :
    pyOrD a d ≠ "" := by
  cases a with
  | none => simpa [pyOrD] using hd
  | some s =>
    by_cases hs : s = "" <;> simp [pyOrD, hs, hd]

/-- A listing record is valid exactly when the three required fields are
non-empty. -/
lemma validate_project_listing_true_iff (p : ProjectListing) :
    (validate_project_listing p).1 = true ↔
      p.project_id ≠ "" ∧ p.title ≠ "" ∧ p.url ≠ "" := by
  unfold validate_project_listing
  by_cases h1 : p.project_id = "" <;> by_cases h2 : p.title = "" <;>
    by_cases h3 : p.url = "" <;> simp [h1, h2, h3]

/-- Joining any relative part onto the site base yields a non-empty URL. -/
lemma urljoin_BASE_ne_empty (rel : String) : urljoin BASE_URL rel ≠ "" := by
  unfold urljoin
  split
  · decide
  · split
    · next h _ => exact h
    · intro heq
      have hd := congrArg String.data heq
      rw [String.data_append] at hd
      exact absurd (List.append_eq_nil.mp hd).1 (by decide)

/-- An item with a present title link parses to the record built from its
components, provided the stripped link text is non-empty (so that
validation passes). -/
lemma parseListingItem_eq (it : ListingItem) (te : TitleElem) (lk : LinkElem)
    (hte : it.titleElem = some te) (hlk : te.link = some lk)
    (htitle : pyStrip lk.text ≠ "") :
    parseListingItem it = some
      { project_id := pyOrD (parseSummary (summaryTextOf it)).1 "UNKNOWN"
        title := pyStrip lk.text
        url := urljoin BASE_URL (lk.href.getD "")
        country := (parseSummary (summaryTextOf it)).2.1
        sector := (parseSummary (summaryTextOf it)).2.2
        status := it.statusText.map pyStrip
        approval_year := it.timeText.map pyStrip } := by
  simp only [parseListingItem, buildListingCandidate, hte, hlk]
  rw [if_pos]
  rw [validate_project_listing_true_iff]
  exact ⟨pyOrD_ne_empty _ _ (by decide), htitle, urljoin_BASE_ne_empty _⟩

/-- The merge loop only ever appends records, and only records whose
identifier is not in the seen set it started from. -/
lemma mergeInto_extends :
    ∀ (new acc : List ProjectDetail) (seen : List String),
      ∃ t, mergeInto acc seen new = acc ++ t ∧ ∀ q ∈ t, q.project_id ∉ seen := by
  intro new
  induction new with
  | nil => exact fun acc seen => ⟨[], by simp [mergeInto], by simp⟩
  | cons p rest ih =>
    intro acc seen
    by_cases h : p.project_id ∈ seen
    · obtain ⟨t, ht, hfree⟩ := ih acc seen
      exact ⟨t, by simpa [mergeInto, h] using ht, hfree⟩
    · obtain ⟨t, ht, hfree⟩ := ih (acc ++ [p]) (p.project_id :: seen)
      refine ⟨p :: t, ?_, ?_⟩
      · simp only [mergeInto, if_neg h]
        rw [ht]
        simp
      · intro q hq
        rcases List.mem_cons.mp hq with rfl | hq2
        · exact h
        · exact fun hs => hfree q hq2 (List.mem_cons_of_mem _ hs)

/-- Looking a key up after a dict assignment: the assigned value for that
key, the old dictionary's answer for every other key. -/
lemma pyDictGet_pyDictInsert (d : List (String × String)) (k v k' : String) :
    pyDictGet (pyDictInsert d k v) k' = if k' = k then some v else pyDictGet d k' := by
  induction d with
  | nil =>
    by_cases h : k' = k
    · subst h; simp [pyDictInsert, pyDictGet]
    · simp [pyDictInsert, pyDictGet, h, Ne.symm h]
  | cons hd tl ih =>
    obtain ⟨k0, v0⟩ := hd
    by_cases h1 : k0 = k
    · subst h1
      by_cases h2 : k' = k0
      · subst h2; simp [pyDictInsert, pyDictGet]
      · simp [pyDictInsert, pyDictGet, h2, Ne.symm h2]
    · by_cases h2 : k' = k0
      · subst h2
        simp [pyDictInsert, pyDictGet, h1, Ne.symm h1]
      · simp [pyDictInsert, pyDictGet, h1, Ne.symm h2, ih]

/-- Folding dict assignments over a pair list: the lookup answers with
the value of the last assignment of the key, falling back to the initial
dictionary. -/
lemma pyDictGet_foldl (ps : List (String × String)) :
    ∀ (d : List (String × String)) (k : String),
      pyDictGet (ps.foldl (fun d kv => pyDictInsert d kv.1 kv.2) d) k =
        match lastValue ps k with
        | some v => some v
        | none => pyDictGet d k := by
  induction ps with
  | nil => intro d k; simp [lastValue]
  | cons kv rest ih =>
    intro d k
    obtain ⟨k0, v0⟩ := kv
    simp only [List.foldl_cons]
    rw [ih]
    cases hl : lastValue rest k with
    | some v => simp [lastValue, hl]
    | none =>
      simp only [lastValue, hl]
      rw [pyDictGet_pyDictInsert]
      by_cases h : k = k0
      · subst h; simp
      · simp [h, Ne.symm h]

/-! ## Claim theorems -/

/-- C1: for every checkpoint state satisfying the data-model invariant
(`scraped_ids` duplicate-free and `total_items_scraped = |scraped_ids|`)
and every identifier, calling `add_scraped_project` twice with that
identifier leaves it in `scraped_project_ids` exactly once, re-establishes
`total_projects_scraped = |scraped_project_ids|`, and the second call is a
no-op (idempotence under repetition). -/
theorem record_item_scraped_idempotent (cp : Checkpoint) (pid : String)
    (hnd : cp.scraped_project_ids.Nodup)
    (htot : cp.total_projects_scraped = cp.scraped_project_ids.length) :
    (add_scraped_project (add_scraped_project cp pid) pid).scraped_project_ids.count pid = 1 ∧
    (add_scraped_project (add_scraped_project cp pid) pid).total_projects_scraped =
      (add_scraped_project (add_scraped_project cp pid) pid).scraped_project_ids.length ∧
    add_scraped_project (add_scraped_project cp pid) pid = add_scraped_project cp pid := by
  by_cases h : pid ∈ cp.scraped_project_ids
  · have h1 := add_scraped_project_mem cp pid h
    have h2 : add_scraped_project (add_scraped_project cp pid) pid = cp := by rw [h1, h1]
    refine ⟨?_, ?_, ?_⟩
    · rw [h2]; exact List.count_eq_one_of_mem hnd h
    · rw [h2]; exact htot
    · rw [h2, h1]
  · have h1 := add_scraped_project_not_mem cp pid h
    have hmem : pid ∈ (add_scraped_project cp pid).scraped_project_ids := by
      rw [h1]; simp
    have h2 := add_scraped_project_mem _ pid hmem
    refine ⟨?_, ?_, h2⟩
    · rw [h2, h1]
      simp [List.count_append, List.count_eq_zero_of_not_mem h]
    · rw [h2, h1]
      simp

/-- C1 witness: the double insertion evaluated at the default checkpoint
state and a concrete identifier. -/
theorem record_item_scraped_idempotent_witness :
    (add_scraped_project (add_scraped_project defaultCheckpointData "59364-001")
        "59364-001").scraped_project_ids.count "59364-001" = 1 ∧
    (add_scraped_project (add_scraped_project defaultCheckpointData "59364-001")
        "59364-001").total_projects_scraped =
      (add_scraped_project (add_scraped_project defaultCheckpointData "59364-001")
        "59364-001").scraped_project_ids.length ∧
    add_scraped_project (add_scraped_project defaultCheckpointData "59364-001") "59364-001" =
      add_scraped_project defaultCheckpointData "59364-001" :=
  record_item_scraped_idempotent defaultCheckpointData "59364-001" (by decide) rfl

/-- C2: when the structured output file holds at most one record under an
identifier, appending a record with that identifier twice — within one
batch, or over two successive append calls — leaves exactly one stored
record with that identifier; and for every batch, the merge preserves the
existing records unchanged (as a leading segment) and appends only
records whose identifier is not already in the file: existing records win
on collision. -/
theorem save_to_json_dedup (existing : List ProjectDetail) (r : ProjectDetail)
    (batch : List ProjectDetail) :
    ((existing.map (·.project_id)).count r.project_id ≤ 1 →
      countById (save_to_json_merge existing [r, r]) r.project_id = 1 ∧
      countById (save_to_json_merge (save_to_json_merge existing [r]) [r])
        r.project_id = 1) ∧
    ∃ t, save_to_json_merge existing batch = existing ++ t ∧
      ∀ q ∈ t, q.project_id ∉ existing.map (·.project_id) := by
  constructor
  · intro hle
    by_cases h : r.project_id ∈ existing.map (·.project_id)
    · have hcount : (existing.map (·.project_id)).count r.project_id = 1 :=
        le_antisymm hle (List.count_pos_iff.mpr h)
      have hm1 : save_to_json_merge existing [r] = existing := by
        simp [save_to_json_merge, mergeInto, h]
      have hm2 : save_to_json_merge existing [r, r] = existing := by
        simp [save_to_json_merge, mergeInto, h]
      constructor
      · rw [hm2]; exact hcount
      · rw [hm1, hm1]; exact hcount
    · have hcount0 : (existing.map (·.project_id)).count r.project_id = 0 :=
        List.count_eq_zero_of_not_mem h
      have hm1 : save_to_json_merge existing [r] = existing ++ [r] := by
        simp [save_to_json_merge, mergeInto, h]
      have hm2 : save_to_json_merge existing [r, r] = existing ++ [r] := by
        simp [save_to_json_merge, mergeInto, h]
      have hmem2 : r.project_id ∈ (existing ++ [r]).map (·.project_id) := by simp
      have hm3 : save_to_json_merge (existing ++ [r]) [r] = existing ++ [r] := by
        simp [save_to_json_merge, mergeInto, hmem2]
      constructor
      · rw [hm2]
        simp [countById, List.count_append, hcount0]
      · rw [hm1, hm3]
        simp [countById, List.count_append, hcount0]
  · exact mergeInto_extends batch existing (existing.map (·.project_id))

/-- C2 witness: the double append evaluated on an empty output file and a
concrete record. -/
theorem save_to_json_dedup_witness :
    countById (save_to_json_merge [] [sampleDetail, sampleDetail]) sampleDetail.project_id = 1 ∧
    countById (save_to_json_merge (save_to_json_merge [] [sampleDetail]) [sampleDetail])
      sampleDetail.project_id = 1 :=
  (save_to_json_dedup [] sampleDetail []).1 (by simp)

/-- C6: the key→value dictionary built by `parse_detail_page` from the
label/value block pairs is a last-write-wins associative scan: for every
detail document and label, the stored value is the one paired with the
last occurrence of that label in document order; illustrated on a
document whose two blocks repeat the label `"A"`. -/
theorem pds_data_last_wins (doc : DetailDoc) (k : String) :
    pyDictGet (buildPdsData doc.dls) k = lastValue (pdsAllPairs doc) k ∧
    pyDictGet
      (buildPdsData
        [{ dts := ["A"], dds := [{ text := "first", strongSector := none, addressCompany := none }] },
         { dts := ["A"], dds := [{ text := "second", strongSector := none, addressCompany := none }] }])
      "A" = some "second" := by
  constructor
  · have h := pyDictGet_foldl (pdsAllPairs doc) [] k
    have hb : buildPdsData doc.dls =
        (pdsAllPairs doc).foldl (fun d kv => pyDictInsert d kv.1 kv.2) [] := rfl
    rw [hb, h]
    cases hl : lastValue (pdsAllPairs doc) k <;> simp [pyDictGet]
  · decide

/-- C7: for every checkpoint state and integer `n`,
`update_page_progress n` sets `last_page_scraped = n` and
`statistics.listing_pages_scraped = n + 1`; `get_resume_page` always
returns `last_page_scraped + 1`, hence `n + 1` after the update, and `6`
after `update_page_progress 5`. -/
theorem page_progress_resume (cp : Checkpoint) (n : Int) :
    (update_page_progress cp n).last_page_scraped = n ∧
    (update_page_progress cp n).statistics.listing_pages_scraped = n + 1 ∧
    get_resume_page cp = cp.last_page_scraped + 1 ∧
    get_resume_page (update_page_progress cp n) = n + 1 ∧
    get_resume_page (update_page_progress cp 5) = 6 :=
  ⟨rfl, rfl, rfl, rfl, rfl⟩

/-- C3 counterexample: on a detail document with no project-number entry
and no header line, fetched for an item whose identifier (`"42-007"`) the
listing stage knows, `parse_detail_page` resolves the identifier to the
`"UNKNOWN"` sentinel, while the resolution chain asserted by the claim
(which consults the listing-stage identifier before falling back to the
sentinel) yields `"42-007"`: the parser has no listing-stage fallback. -/
theorem detail_id_ignores_listing_stage :
    (parse_detail_page headerlessDoc "https://www.adb.org/projects/42-007/main").map
        (·.project_id) = some "UNKNOWN" ∧
    pyDictGet (buildPdsData headerlessDoc.dls) "Project Number" = none ∧
    headerProjectId headerlessDoc = none ∧
    claimIdResolution none none (some "42-007") = "42-007" ∧
    ("UNKNOWN" : String) ≠ "42-007" :=
  ⟨by decide, rfl, rfl, by decide, by decide⟩

/-- C3 amended: for every detail document and URL, `parse_detail_page`
resolves the record identifier first-non-empty from the dictionary
project-number field, else the identifier parsed from the header line,
else the literal `"UNKNOWN"` (no listing-stage fallback exists), and the
title first-non-empty from the dictionary project-name field, else the
top-level heading text, else `"UNKNOWN"`. -/
theorem detail_id_title_precedence (doc : DetailDoc) (url : String) :
    (parse_detail_page doc url).map (·.project_id) =
      some (pyOrD (pyOrO (pyDictGet (buildPdsData doc.dls) "Project Number")
        (headerProjectId doc)) "UNKNOWN") ∧
    (parse_detail_page doc url).map (·.title) =
      some (pyOrD (pyOrO (pyDictGet (buildPdsData doc.dls) "Project Name")
        (detailHeadingTitle doc)) "UNKNOWN") :=
  ⟨rfl, rfl⟩

/-- C4: for every non-empty summary text, the listing parser splits it
positionally on semicolons — first stripped segment to `id`, second (if
present) to `country`, third (if present) to `sector`, out-of-range
segments left unset; in particular the item with summary
`"59364-001; Thailand; Finance"` parses to a record with
`id="59364-001"`, `country="Thailand"`, `sector="Finance"`, and the item
with summary `"59364-001"` to a record with that id and `country`,
`sector` unset. -/
theorem listing_summary_positional (s : String) :
    (s ≠ "" → parseSummary s =
      (((pySplit s ';').map pyStrip)[0]?,
       ((pySplit s ';').map pyStrip)[1]?,
       ((pySplit s ';').map pyStrip)[2]?)) ∧
    parseListingItem (itemWithSummary "59364-001; Thailand; Finance") =
      some { project_id := "59364-001", title := "Some Project",
             url := "https://www.adb.org/projects/59364-001/main",
             country := some "Thailand", sector := some "Finance",
             status := none, approval_year := none } ∧
    parseListingItem (itemWithSummary "59364-001") =
      some { project_id := "59364-001", title := "Some Project",
             url := "https://www.adb.org/projects/59364-001/main",
             country := none, sector := none,
             status := none, approval_year := none } := by
  refine ⟨?_, by decide, by decide⟩
  intro hs
  unfold parseSummary
  rw [if_pos hs]
  simp only [Prod.mk.injEq]
  refine ⟨?_, ?_, ?_⟩ <;>
    · split
      · rfl
      · next h => exact (List.getElem?_eq_none (by omega)).symm

/-- C4 witness: the positional-split description evaluated at the
concrete summary text. -/
theorem listing_summary_positional_witness :
    parseSummary "59364-001; Thailand; Finance" =
      (((pySplit "59364-001; Thailand; Finance" ';').map pyStrip)[0]?,
       ((pySplit "59364-001; Thailand; Finance" ';').map pyStrip)[1]?,
       ((pySplit "59364-001; Thailand; Finance" ';').map pyStrip)[2]?) :=
  (listing_summary_positional "59364-001; Thailand; Finance").1 (by decide)

/-- C5: `parse_detail_page` is a total function into an optional record —
the catch-all handler of the source means every input yields `some`
record or `none`, never a propagated exception — and the caller
(`scrape_details`) maps a `none` result to a failed-fetch entry with
reason `"Parsing failed"` while a `some` result never touches the
failure log. -/
theorem detail_parse_failure_policy (doc : DetailDoc) (url : String) (cp : Checkpoint) :
    ((parse_detail_page doc url).isSome = true ∨
      (scrapeDetailHandle cp url (parse_detail_page doc url)).failed_urls =
        cp.failed_urls ++ [{ url := url, error := "Parsing failed" }]) ∧
    (scrapeDetailHandle cp url none).failed_urls =
      cp.failed_urls ++ [{ url := url, error := "Parsing failed" }] ∧
    ∀ d : ProjectDetail,
      (scrapeDetailHandle cp url (some d)).failed_urls = cp.failed_urls := by
  refine ⟨Or.inl rfl, rfl, ?_⟩
  intro d
  cases hp : projectIdFromUrl url with
  | none => simp [scrapeDetailHandle, hp, increment_detail_pages]
  | some pid =>
    by_cases hpe : pid = ""
    · simp [scrapeDetailHandle, hp, hpe, increment_detail_pages]
    · simp [scrapeDetailHandle, hp, hpe, increment_detail_pages,
        add_scraped_project_failed_urls]

/-- C8: `parse_listing_page` is the total per-item filter of its item
blocks (so a failing item can never abort the page), an item whose title
element or title link is missing parses to nothing, and splicing such an
item into any page leaves the parses of the surrounding items untouched —
only the malformed item is skipped. -/
theorem listing_parse_skips_bad_items (items pre post : List ListingItem)
    (bad : ListingItem) :
    parse_listing_page { items := items } = items.filterMap parseListingItem ∧
    ((bad.titleElem = none ∨ ∃ te, bad.titleElem = some te ∧ te.link = none) →
      parseListingItem bad = none ∧
      parse_listing_page { items := pre ++ bad :: post } =
        parse_listing_page { items := pre } ++ parse_listing_page { items := post }) := by
  refine ⟨rfl, ?_⟩
  intro h
  have hb : parseListingItem bad = none := by
    rcases h with h | ⟨te, hte, hlk⟩
    · simp [parseListingItem, buildListingCandidate, h]
    · simp [parseListingItem, buildListingCandidate, hte, hlk]
  refine ⟨hb, ?_⟩
  simp [parse_listing_page, List.filterMap_append, List.filterMap_cons, hb]

/-- C8 witness: a page consisting of one title-less item parses to the
empty result, equal to the concatenation of its (empty) surroundings. -/
theorem listing_parse_skips_bad_items_witness :
    parseListingItem badItem = none ∧
    parse_listing_page { items := [badItem] } =
      parse_listing_page { items := [] } ++ parse_listing_page { items := [] } :=
  (listing_parse_skips_bad_items [] [] [] badItem).2 (Or.inl rfl)

/-- C9: on every detail document with no financing table,
`parse_detail_page` leaves `financing_source` and `financing_amount`
unset and still returns the record — the record is not dropped, since
only `id`, `title` and `url` are strictly required and those are always
populated (via the `"UNKNOWN"` fallbacks and the input URL). -/
theorem detail_missing_fund_table (doc : DetailDoc) (url : String)
    (h : doc.fund_table = none) :
    (parse_detail_page doc url).map (·.financing_source) = some none ∧
    (parse_detail_page doc url).map (·.financing_amount) = some none ∧
    (parse_detail_page doc url).isSome = true := by
  have hf : detailFinancing doc = (none, none) := by simp [detailFinancing, h]
  have h1 : (parse_detail_page doc url).map (·.financing_source) =
      some (detailFinancing doc).1 := rfl
  have h2 : (parse_detail_page doc url).map (·.financing_amount) =
      some (detailFinancing doc).2 := rfl
  rw [h1, h2, hf]
  exact ⟨rfl, rfl, rfl⟩

/-- C9 witness: the financing fields evaluated on a concrete document
without a financing table. -/
theorem detail_missing_fund_table_witness :
    (parse_detail_page noFundDoc "https://www.adb.org/projects/59364-001/main").map
        (·.financing_source) = some none ∧
    (parse_detail_page noFundDoc "https://www.adb.org/projects/59364-001/main").map
        (·.financing_amount) = some none ∧
    (parse_detail_page noFundDoc "https://www.adb.org/projects/59364-001/main").isSome = true :=
  detail_missing_fund_table noFundDoc "https://www.adb.org/projects/59364-001/main" rfl

/-- C10: a candidate listing record is never rejected for its identifier —
the `"UNKNOWN"` substitution makes the required-field check on
`project_id` always pass, so rejection can only come from an empty title
or URL; and an item with a title link whose stripped summary is absent or
empty is still emitted, with `project_id = "UNKNOWN"`. -/
theorem listing_unknown_id_never_rejected (it : ListingItem) (te : TitleElem)
    (lk : LinkElem) (p : ProjectListing) :
    (buildListingCandidate it = some p →
      p.project_id ≠ "" ∧
      ((validate_project_listing p).1 = false → p.title = "" ∨ p.url = "")) ∧
    (it.titleElem = some te → te.link = some lk → pyStrip lk.text ≠ "" →
      summaryTextOf it = "" →
      (parseListingItem it).map (·.project_id) = some "UNKNOWN" ∧
      (parseListingItem it).isSome = true) := by
  constructor
  · intro hb
    cases hti : it.titleElem with
    | none => simp [buildListingCandidate, hti] at hb
    | some te2 =>
      cases hlk2 : te2.link with
      | none => simp [buildListingCandidate, hti, hlk2] at hb
      | some lk2 =>
        simp only [buildListingCandidate, hti, hlk2, Option.some.injEq] at hb
        subst hb
        refine ⟨pyOrD_ne_empty _ _ (by decide), ?_⟩
        intro hval
        by_contra hcon
        push_neg at hcon
        have htrue := (validate_project_listing_true_iff _).mpr
          ⟨pyOrD_ne_empty _ _ (by decide), hcon.1, hcon.2⟩
        rw [hval] at htrue
        exact Bool.false_ne_true htrue
  · intro hte hlk htitle hsum
    rw [parseListingItem_eq it te lk hte hlk htitle]
    rw [hsum]
    constructor
    · simp [parseSummary, pyOrD]
    · rfl

/-- C10 witness: the emission and rejection facts evaluated at a concrete
item with a title link and no summary element. -/
theorem listing_unknown_id_never_rejected_witness :
    (parseListingItem noSummaryItem).map (·.project_id) = some "UNKNOWN" ∧
    (parseListingItem noSummaryItem).isSome = true := by
  have h := listing_unknown_id_never_rejected noSummaryItem
    { link := some { text := "Some Project", href := some "/projects/42-007/main" } }
    { text := "Some Project", href := some "/projects/42-007/main" }
    { project_id := "UNKNOWN", title := "x", url := "y",
      country := none, sector := none, status := none, approval_year := none }
  exact h.2 rfl rfl (by decide) rfl

end AdbScraper
